import Mathlib

/-!
Verification development for the 5x5 dot-grid front end.

The embedding models the TypeScript sources of the repository:
* `useDotGrid` (the grid interaction hook): state machine, timers, ripple and
  random idle animations, click/close handlers, derived display state;
* `DotFactory`: position-based colors (`interpolateColor`, `getPositionColor`)
  and the artist-name slugging rule;
* `Vector2D`: `gridToWorld` / `worldToGrid`;
* `useDotProps`: the context-based `getDotDisplayState`.

Modelling conventions:
* JS numbers are modelled as `ℚ` (for fractional arithmetic: random draws,
  color interpolation factors, world coordinates) or as `ℤ`/`ℕ` where the
  source only ever holds integers; `NaN` is modelled as `none` in `Option ℤ`.
* JS strings are Lean `String`s; the string helpers (`split`, `parseInt`,
  `toString(16)`, `slice`, `padStart`) are implemented structurally so they
  evaluate inside `decide`.
* React state updates (`setX`) inside one event handler are modelled as a
  single state transformation (React batches them); `useRef` cells are
  ordinary fields.  A timer handle the source KEEPS in a ref is modelled as
  a `Bool` (armed or not), and its callback as a function that acts only
  when that timer is armed, which captures "a callback cleared before
  firing is a no-op".  The nested 100ms pick `setTimeout` of the random
  animation is the exception: the source discards its handle, so its model
  (`randomStepTimeoutCallback`) is deliberately unguarded — nothing can
  cancel it.
* `useCallback` closures capture the state of the render in which they were
  created.  Where this matters (`resetInactivityTimer` reads `selectedDot`
  from its closure, not the value just written by `setSelectedDot`), the
  captured value is passed explicitly as a `closure…` argument.
* Navigation (`router.push`, `window.open`) is returned as a list of
  `NavAction`s next to the new state.
-/

/-- JS truthiness for a `string | null` value: `null` and `""` are falsy. -/
def jsTruthy (o : Option String) : Bool :=
  match o with
  | none => false
  | some s => s != ""

/-- Decimal digit value of a character, `none` if not `0`-`9`. -/
def decDigit (c : Char) : Option Nat :=
  if '0' ≤ c ∧ c ≤ '9' then some (c.toNat - 48) else none

/-- Hex digit value of a character (`0`-`9`, `a`-`f`, `A`-`F`), else `none`. -/
def hexDigit (c : Char) : Option Nat :=
  if '0' ≤ c ∧ c ≤ '9' then some (c.toNat - 48)
  else if 'a' ≤ c ∧ c ≤ 'f' then some (c.toNat - 87)
  else if 'A' ≤ c ∧ c ≤ 'F' then some (c.toNat - 55)
  else none

/-- Value of the maximal digit prefix of `cs` in the given base, `none`
if the prefix is empty (JS `parseInt` yields `NaN` then). -/
def digitsPrefixVal (digit : Char → Option Nat) (base : Nat) (cs : List Char) : Option Nat :=
  let ds := cs.takeWhile (fun c => (digit c).isSome)
  if ds.isEmpty then none
  else some (ds.foldl (fun acc c => acc * base + (digit c).getD 0) 0)

/-- Strip the leading whitespace JS `parseInt` skips. -/
def jsStripWs (cs : List Char) : List Char :=
  cs.dropWhile (fun c => c == ' ' || c == '\t' || c == '\n' || c == '\r')

/-- JS `parseInt(s)` with no radix argument: optional sign, an optional
`0x`/`0X` prefix switching to base 16, then a maximal digit prefix;
`NaN` (here `none`) if no digit follows. -/
def jsParseInt (s : String) : Option ℤ :=
  let cs0 := jsStripWs s.data
  let signedTail : Bool × List Char :=
    match cs0 with
    | '-' :: rest => (true, rest)
    | '+' :: rest => (false, rest)
    | _ => (false, cs0)
  let neg := signedTail.1
  let body : Bool × List Char :=
    match signedTail.2 with
    | '0' :: 'x' :: rest => (true, rest)
    | '0' :: 'X' :: rest => (true, rest)
    | _ => (false, signedTail.2)
  let mag := if body.1 then digitsPrefixVal hexDigit 16 body.2
             else digitsPrefixVal decDigit 10 body.2
  mag.map (fun m => if neg then -(m : ℤ) else (m : ℤ))

/-- JS `parseInt(s, 16)`: optional sign, optional `0x`/`0X` prefix, then a
maximal hex-digit prefix. -/
def jsParseHex (s : String) : Option ℤ :=
  let cs0 := jsStripWs s.data
  let signedTail : Bool × List Char :=
    match cs0 with
    | '-' :: rest => (true, rest)
    | '+' :: rest => (false, rest)
    | _ => (false, cs0)
  let neg := signedTail.1
  let body : List Char :=
    match signedTail.2 with
    | '0' :: 'x' :: rest => rest
    | '0' :: 'X' :: rest => rest
    | _ => signedTail.2
  (digitsPrefixVal hexDigit 16 body).map (fun m => if neg then -(m : ℤ) else (m : ℤ))

/-- Helper for `jsSplit`: split a character list at every separator. -/
def splitChars (sep : Char) : List Char → List Char → List (List Char)
  | [], acc => [acc.reverse]
  | c :: cs, acc =>
    if c == sep then acc.reverse :: splitChars sep cs []
    else splitChars sep cs (c :: acc)

/-- JS `s.split(sep)` for a single-character separator. -/
def jsSplit (s : String) (sep : Char) : List String :=
  (splitChars sep s.data []).map (fun l => ⟨l⟩)

/-- Character for a digit value below 10 (`'0'`-`'9'`). -/
def digitChar10 (n : Nat) : Char := Char.ofNat (48 + n)

/-- Character for a digit value below 16 (`'0'`-`'9'`, `'a'`-`'f'`), as JS
`Number.prototype.toString(16)` produces lowercase. -/
def digitChar16 (n : Nat) : Char :=
  if n < 10 then Char.ofNat (48 + n) else Char.ofNat (87 + n)

/-- Fuel-driven decimal digit expansion (structural so the kernel can
evaluate it; any `fuel` with `n < 10 ^ fuel` gives the digits of `n`). -/
def natToCharsCore : Nat → Nat → List Char
  | 0, _ => []
  | fuel + 1, n =>
    if n < 10 then [digitChar10 n]
    else natToCharsCore fuel (n / 10) ++ [digitChar10 (n % 10)]

/-- Decimal digits of a natural number, most significant first. -/
def natToChars (n : Nat) : List Char := natToCharsCore (n + 1) n

/-- Fuel-driven hex digit expansion, lowercase. -/
def natToHexCharsCore : Nat → Nat → List Char
  | 0, _ => []
  | fuel + 1, n =>
    if n < 16 then [digitChar16 n]
    else natToHexCharsCore fuel (n / 16) ++ [digitChar16 (n % 16)]

/-- Lowercase hex digits of a natural number, most significant first. -/
def natToHexChars (n : Nat) : List Char := natToHexCharsCore (n + 1) n

/-- JS `String(v)` / template interpolation for an integer-valued number. -/
def intToDecString (v : ℤ) : String :=
  if v < 0 then "-" ++ (⟨natToChars (-v).toNat⟩ : String)
  else (⟨natToChars v.toNat⟩ : String)

/-- JS template interpolation of a possibly-`NaN` number (`none` prints as
`"NaN"`). -/
def jsNumToString (o : Option ℤ) : String :=
  match o with
  | none => "NaN"
  | some v => intToDecString v

/-- JS `v.toString(16)` for an integer-valued number. -/
def intToHexString (v : ℤ) : String :=
  if v < 0 then "-" ++ (⟨natToHexChars (-v).toNat⟩ : String)
  else (⟨natToHexChars v.toNat⟩ : String)

/-- JS `s.padStart(2, '0')`. -/
def jsPadStart2 (s : String) : String :=
  if 2 ≤ s.data.length then s else (⟨List.replicate (2 - s.data.length) '0'⟩ : String) ++ s

/-- JS `s.slice(a, b)` for `0 ≤ a ≤ b` (the only uses in this code base). -/
def jsSlice (s : String) (a b : Nat) : String := ⟨(s.data.drop a).take (b - a)⟩

/-- JS `Math.round` on an exact rational: round half toward positive
infinity, i.e. `⌊q + 1/2⌋`. -/
def jsRound (q : ℚ) : ℤ := ⌊q + 1 / 2⌋

/-- JS `Math.floor(r * len)`, used to turn a `Math.random()` draw into a
list index (as a `Nat`; the draw is in `[0, 1)` so the floor is
non-negative). -/
def jsFloorIndex (r : ℚ) (len : Nat) : Nat := (⌊r * (len : ℚ)⌋).toNat

/-- JS `parts[parts.length - 2] || parts[0]` (the row segment of a dot id:
for `"row-col"` this is `parts[0]`, for `"prefix-row-col"` the middle
segment; `undefined` and `""` fall back to `parts[0]`). -/
def fallbackSegment (parts : List String) : String :=
  match parts.get? (parts.length - 2) with
  | some s => if s = "" then parts.getD 0 "" else s
  | none => parts.getD 0 ""

/-- Last hyphen-separated segment, `parts[parts.length - 1]`. -/
def lastSegment (parts : List String) : String := parts.getD (parts.length - 1) ""

/-! ## Vector2D / GridPosition (src/entities/types/Vector2D.ts) -/

/-- Integer grid coordinates `{row, col}`. -/
structure GridPosition where
  row : ℤ
  col : ℤ
deriving DecidableEq, Repr

/-- World-space coordinate `{x, y}`. -/
structure Vector2D where
  x : ℚ
  y : ℚ
deriving DecidableEq, Repr

/-- Source `gridToWorld(gridPos, cellSize, gap)`:
`{ x: gridPos.col * (cellSize + gap), y: gridPos.row * (cellSize + gap) }`. -/
def gridToWorld (gridPos : GridPosition) (cellSize : ℚ) (gap : ℚ) : Vector2D :=
  { x := (gridPos.col : ℚ) * (cellSize + gap)
    y := (gridPos.row : ℚ) * (cellSize + gap) }

/-- Source `worldToGrid(worldPos, cellSize, gap)`:
`{ col: Math.floor(worldPos.x / (cellSize + gap)), row: Math.floor(worldPos.y / (cellSize + gap)) }`. -/
def worldToGrid (worldPos : Vector2D) (cellSize : ℚ) (gap : ℚ) : GridPosition :=
  { row := ⌊worldPos.y / (cellSize + gap)⌋
    col := ⌊worldPos.x / (cellSize + gap)⌋ }

/-! ## DotFactory colors (src/entities/DotFactory.ts) -/

/-- One channel of `interpolateColor`: both endpoint digits must have parsed
(else the JS arithmetic is `NaN`, modelled as `none`). -/
def interpolateChannel (x y : Option ℤ) (factor : ℚ) : Option ℤ :=
  match x, y with
  | some a, some b => some (jsRound ((a : ℚ) + ((b : ℚ) - (a : ℚ)) * factor))
  | _, _ => none

/-- JS `v.toString(16).padStart(2, '0')` where `v` may be `NaN`
(`NaN.toString(16)` is `"NaN"`, which `padStart(2)` leaves unchanged). -/
def channelHex (o : Option ℤ) : String :=
  match o with
  | none => "NaN"
  | some v => jsPadStart2 (intToHexString v)

/-- Source `interpolateColor(color1, color2, factor)`: parse the three hex
channel pairs with `parseInt(slice, 16)`, interpolate each channel with
`Math.round(c1 + (c2 - c1) * factor)`, and format as `#rrggbb`. -/
def interpolateColor (color1 color2 : String) (factor : ℚ) : String :=
  let r1 := jsParseHex (jsSlice color1 1 3)
  let g1 := jsParseHex (jsSlice color1 3 5)
  let b1 := jsParseHex (jsSlice color1 5 7)
  let r2 := jsParseHex (jsSlice color2 1 3)
  let g2 := jsParseHex (jsSlice color2 3 5)
  let b2 := jsParseHex (jsSlice color2 5 7)
  "#" ++ channelHex (interpolateChannel r1 r2 factor)
      ++ channelHex (interpolateChannel g1 g2 factor)
      ++ channelHex (interpolateChannel b1 b2 factor)

/-- The Turrell-Anderson palette constants used by the factory. -/
def paletteSkyfall : String := "#A8D5E5"

/-- Palette constant `dawnGlow`. -/
def paletteDawnGlow : String := "#FFB7A5"

/-- Palette constant `violetHour`. -/
def paletteVioletHour : String := "#C9A7EB"

/-- Palette constant `dustyRose`. -/
def paletteDustyRose : String := "#D4A5A5"

/-- Palette constant `mustardPress`. -/
def paletteMustardPress : String := "#E8B84A"

/-- Palette constant `seaFoam`. -/
def paletteSeaFoam : String := "#98D4BB"

/-- Source `ROW_COLOR_ZONES`: the fixed 5-zone row palette, each zone a
`{primary, secondary}` pair. -/
def ROW_COLOR_ZONES : List (String × String) :=
  [ (paletteSkyfall, paletteVioletHour)
  , (paletteVioletHour, paletteDustyRose)
  , (paletteDustyRose, paletteDawnGlow)
  , (paletteDawnGlow, paletteMustardPress)
  , (paletteMustardPress, paletteSeaFoam) ]

/-- Source `getPositionColor(row, col, totalCols)`: clamp the row index to
the last zone, compute `colFactor = col / (totalCols - 1)` and interpolate
the zone's two colors. -/
def getPositionColor (row col : Nat) (totalCols : Nat) : String :=
  let safeRow := min row (ROW_COLOR_ZONES.length - 1)
  let zone := ROW_COLOR_ZONES.getD safeRow (paletteSkyfall, paletteVioletHour)
  let colFactor : ℚ := (col : ℚ) / ((totalCols : ℚ) - 1)
  interpolateColor zone.1 zone.2 colFactor

/-- The artist-name slugging rule shared by `handleArtistDotClick` and
`createArtistDot`: lowercase, then `replace(/[^a-z0-9]+/g, '-')`, then
`replace(/^-+|-+$/g, '')`.  `isLowerAlnum` is the character class
`[a-z0-9]`. -/
def isLowerAlnum (c : Char) : Bool :=
  ('a' ≤ c && c ≤ 'z') || ('0' ≤ c && c ≤ '9')

/-- Replace every run of non-`[a-z0-9]` characters by a single `'-'`.
The boolean flag records whether we are inside such a run. -/
def collapseNonAlnum : Bool → List Char → List Char
  | _, [] => []
  | inRun, c :: cs =>
    if isLowerAlnum c then c :: collapseNonAlnum false cs
    else if inRun then collapseNonAlnum true cs
    else '-' :: collapseNonAlnum true cs

/-- Strip leading and trailing hyphens (`replace(/^-+|-+$/g, '')`). -/
def trimHyphens (cs : List Char) : List Char :=
  ((cs.dropWhile (fun c => c == '-')).reverse.dropWhile (fun c => c == '-')).reverse

/-- Source slugging expression
`artist.artistName.toLowerCase().replace(/[^a-z0-9]+/g, '-').replace(/^-+|-+$/g, '')`. -/
def slugifyArtistName (name : String) : String :=
  ⟨trimHyphens (collapseNonAlnum false (name.data.map Char.toLower))⟩

/-! ## useDotGrid hook state (src: useDotGrid / part_004) -/

/-- Navigation side effects (`router.push`, `window.open`). -/
inductive NavAction where
  | push (route : String)
  | openWindow (url : String)
deriving DecidableEq, Repr

/-- State owned by one `useDotGrid` instance.  `useState` values and
`useRef` cells are fields; a `Bool` timer field is `true` exactly when the
corresponding `setTimeout` / `setInterval` handle is live (armed). -/
structure HookState where
  hoveredDot : Option String
  selectedDot : Option String
  selectedContent : Option String
  rippleDot : Option String
  randomDot : Option String
  isContentExpanded : Bool
  inactivityTimer : Bool
  rippleTimer : Bool
  randomTimer : Bool
  isAnimating : Bool
  usedDots : List String
  animationCount : Nat
deriving DecidableEq, Repr

/-- Source `getNextRipplePosition(current)`: falsy input restarts at
`"0-0"`; otherwise split on `'-'`, parse the row and column segments, and
either advance the column, wrap to the next row, or (past row 4's last
column) stop with `null`. -/
def getNextRipplePosition (cols : Nat) (current : Option String) : Option String :=
  if ¬ jsTruthy current then some "0-0"
  else
    let parts := jsSplit (current.getD "") '-'
    let row := jsParseInt (fallbackSegment parts)
    let col := jsParseInt (lastSegment parts)
    if col = some ((cols : ℤ) - 1) then
      if row = some 4 then none
      else some (jsNumToString (row.map (· + 1)) ++ "-0")
    else
      some (jsNumToString row ++ "-" ++ jsNumToString (col.map (· + 1)))

/-- The sequence of `rippleDot` values during a ripple run: the animation
starts by setting `"0-0"`, then each interval tick applies
`getNextRipplePosition`; when it returns `null` the interval is cleared, so
`none` is absorbing (no later tick produces a value). -/
def rippleState (cols : Nat) : Nat → Option String
  | 0 => some "0-0"
  | n + 1 =>
    match rippleState cols n with
    | none => none
    | some cur => getNextRipplePosition cols (some cur)

/-- One dot id `"i-j"` as built by the template literal in
`getRandomUnusedDot`. -/
def dotId (i j : Nat) : String := ⟨natToChars i ++ '-' :: natToChars j⟩

/-- All ids the `getRandomUnusedDot` double loop ranges over
(`i` in `0..4`, `j` in `0..cols-1`, row-major). -/
def allDotIds (cols : Nat) : List String :=
  ((List.range 5).map (fun i => (List.range cols).map (fun j => dotId i j))).flatten

/-- The `allDotIds` array the source builds: ids not in the used set, in
loop order. -/
def unusedIds (cols : Nat) (used : List String) : List String :=
  (allDotIds cols).filter (fun d => decide (d ∉ used))

/-- Source `getRandomUnusedDot()`: collect unused ids; if none remain,
clear the used set and retry (the source recurses; one level of fuel per
retry — `fuel = 2` always suffices, see `getRandomUnusedDot_spec`); else
pick index `Math.floor(Math.random() * length)`, add the pick to the used
set and return it.  `r` is the `Math.random()` draw (only one draw is made
per returned pick, since the empty branch recurses before drawing). -/
def getRandomUnusedDotFuel (cols : Nat) (r : ℚ) : Nat → List String → Option (String × List String)
  | 0, _ => none
  | fuel + 1, used =>
    let avail := unusedIds cols used
    if avail.isEmpty then getRandomUnusedDotFuel cols r fuel []
    else
      let sel := avail.getD (jsFloorIndex r avail.length) ""
      some (sel, sel :: used)

/-- The first `n` picks of a Randomizing sequence together with the used
set after them: pick `k` consumes the draw `rs k`.  (In the source the
first pick happens in `runRandomDotAnimation` and each later one inside the
interval's nested `setTimeout`; the pick logic is identical.) -/
def randomRun (cols : Nat) (rs : Nat → ℚ) : Nat → List String × List String
  | 0 => ([], [])
  | n + 1 =>
    let prev := randomRun cols rs n
    match getRandomUnusedDotFuel cols (rs n) 2 prev.2 with
    | some (sel, used2) => (prev.1 ++ [sel], used2)
    | none => prev

/-- Source `clearAllAnimations()`: clear the ripple, random and inactivity
timers, null both animation dots, drop the animating flag. -/
def clearAllAnimations (s : HookState) : HookState :=
  { s with rippleTimer := false
           randomTimer := false
           inactivityTimer := false
           rippleDot := none
           randomDot := none
           isAnimating := false }

/-- Source `handleDotClick(dotId, contentKey)`: `clearAllAnimations()` then
set the selection. -/
def handleDotClick (clickedId contentKey : String) (s : HookState) : HookState :=
  let s1 := clearAllAnimations s
  { s1 with selectedDot := some clickedId, selectedContent := some contentKey }

/-- Source `resetInactivityTimer()`: clear any pending inactivity timeout,
then arm a new one only if nothing is animating and no dot is selected.
`closureSelectedDot` is the `selectedDot` value captured by the
`useCallback` closure at the render that created this callback (a `setX`
call earlier in the same event handler does NOT change it);
`isAnimatingRef` is a ref, hence read live from `s`. -/
def resetInactivityTimer (closureSelectedDot : Option String) (s : HookState) : HookState :=
  let s1 := { s with inactivityTimer := false }
  if !s1.isAnimating && !jsTruthy closureSelectedDot then
    { s1 with inactivityTimer := true }
  else s1

/-- Source `runRippleAnimation()`: guarded by the animating flag and the
closure's `selectedDot`; sets `rippleDot = '0-0'` and arms the ripple
interval. -/
def runRippleAnimation (closureSelectedDot : Option String) (s : HookState) : HookState :=
  if s.isAnimating || jsTruthy closureSelectedDot then s
  else { s with isAnimating := true, rippleDot := some "0-0", rippleTimer := true }

/-- Source `runRandomDotAnimation()`: guarded like the ripple; resets the
animation count, makes the first pick immediately, then arms the random
interval.  `r` is the `Math.random()` draw of the first pick. -/
def runRandomDotAnimation (closureSelectedDot : Option String) (cols : Nat) (r : ℚ)
    (s : HookState) : HookState :=
  if s.isAnimating || jsTruthy closureSelectedDot then s
  else
    let s1 := { s with isAnimating := true, animationCount := 0 }
    match getRandomUnusedDotFuel cols r 2 s1.usedDots with
    | some (sel, used2) =>
      { s1 with randomDot := some sel, usedDots := used2, animationCount := 1,
                randomTimer := true }
    | none => s1

/-- The ripple interval callback (body of the `setInterval` in
`runRippleAnimation`).  It can only run while its interval is armed; a
callback whose interval was cleared is a no-op, which the guard models. -/
def rippleIntervalTick (cols : Nat) (s : HookState) : HookState :=
  if s.rippleTimer then
    match getNextRipplePosition cols s.rippleDot with
    | none => { s with rippleDot := none, rippleTimer := false, isAnimating := false }
    | some nxt => { s with rippleDot := some nxt }
  else s

/-- The random interval callback (body of the `setInterval` in
`runRandomDotAnimation`): once the count is reached it clears itself and
the used set and nulls `randomDot`; otherwise it blanks `randomDot` and
schedules the nested 100ms pick `setTimeout`
(`randomStepTimeoutCallback`).  Guarded by its own interval handle like
`rippleIntervalTick`. -/
def randomIntervalTick (randomCount : Nat) (s : HookState) : HookState :=
  if s.randomTimer then
    if randomCount ≤ s.animationCount then
      { s with randomTimer := false, randomDot := none, isAnimating := false, usedDots := [] }
    else
      { s with randomDot := none }
  else s

/-- The nested 100ms `setTimeout` body scheduled by `randomIntervalTick`'s
else branch: pick the next unused dot, display it, bump the count.  The
source discards this timeout's handle (it is stored in no ref), so
`clearAllAnimations` cannot clear it and nothing guards it: once
scheduled, it always runs — even after a dot was clicked.  `r` is its
`Math.random()` draw. -/
def randomStepTimeoutCallback (cols : Nat) (r : ℚ) (s : HookState) : HookState :=
  match getRandomUnusedDotFuel cols r 2 s.usedDots with
  | some (sel, used2) =>
    { s with randomDot := some sel, usedDots := used2,
             animationCount := s.animationCount + 1 }
  | none => s

/-- The inactivity timeout callback: when it fires the one-shot timeout is
spent; `Math.random() < 0.5` (the `coin`) chooses ripple or random.
Guarded by its timer like the interval callbacks. -/
def inactivityTimeoutCallback (closureSelectedDot : Option String) (coin : Bool)
    (cols : Nat) (r : ℚ) (s : HookState) : HookState :=
  if s.inactivityTimer then
    let s1 := { s with inactivityTimer := false }
    if coin then runRippleAnimation closureSelectedDot s1
    else runRandomDotAnimation closureSelectedDot cols r s1
  else s

/-- Source `handleClose()`: null the selection, collapse the card, navigate
to `/`, then call `resetInactivityTimer()`.  The `resetInactivityTimer`
closure still holds the render-time `selectedDot` (the `setSelectedDot(null)`
just issued does not rewrite existing closures), hence the explicit
`s.selectedDot` argument. -/
def handleClose (s : HookState) : HookState × List NavAction :=
  let s1 := { s with selectedDot := none, selectedContent := none, isContentExpanded := false }
  (resetInactivityTimer s.selectedDot s1, [NavAction.push "/"])

/-- Artist record shape consumed by `handleArtistDotClick`
(from ancient-technology.json). -/
structure ArtistData where
  artistName : String
  slug : String
  isSpecialLink : Bool
  linkType : Option String
  url : Option String
deriving DecidableEq, Repr

/-- Source `handleArtistDotClick(dotId, artist)`: clear animations; special
link dots only navigate (subscribe route or external window) and never set
the selection; ordinary artist dots navigate to the derived slug route and
set `selectedDot`/`selectedContent`. -/
def handleArtistDotClick (clickedId : String) (artist : ArtistData) (s : HookState) :
    HookState × List NavAction :=
  let s1 := clearAllAnimations s
  if artist.isSpecialLink then
    if artist.linkType = some "subscribe" then
      (s1, [NavAction.push "/subscribe"])
    else if artist.linkType = some "instagram" && jsTruthy artist.url then
      (s1, [NavAction.openWindow (artist.url.getD "")])
    else
      (s1, [])
  else
    let artistSlug := slugifyArtistName artist.artistName
    ({ s1 with selectedDot := some clickedId, selectedContent := some artistSlug },
     [NavAction.push ("/events/ancient-technology/" ++ artistSlug)])

/-! ## Derived display state and selected position -/

/-- The record `getDotDisplayState` returns. -/
structure DotDisplayState where
  isHovered : Bool
  isRippling : Bool
  isRandomlySelected : Bool
  isSelected : Bool
  isClickedDot : Bool
  shouldHide : Bool
deriving DecidableEq, Repr

/-- JS `typeof window !== 'undefined' && window.innerWidth < 1024`:
`none` models a missing `window` (SSR). -/
def isMobileOfWidth (innerWidth : Option ℤ) : Bool :=
  match innerWidth with
  | none => false
  | some w => decide (w < 1024)

/-- Source `getDotDisplayState(dotId)` of the hook: pure comparisons of the
state snapshot against the dot id, plus the narrow-viewport hide rule.
The viewport width is an explicit input here (the source reads the ambient
`window.innerWidth`). -/
def getDotDisplayState (hoveredDot selectedDot rippleDot randomDot : Option String)
    (innerWidth : Option ℤ) (queriedId : String) : DotDisplayState :=
  let isMobile := isMobileOfWidth innerWidth
  let isSelected := selectedDot ≠ none
  let isClickedDot := selectedDot = some queriedId
  { isHovered := decide (hoveredDot = some queriedId)
    isRippling := decide (rippleDot = some queriedId)
    isRandomlySelected := decide (randomDot = some queriedId)
    isSelected := decide isSelected
    isClickedDot := decide isClickedDot
    shouldHide := isMobile && decide isSelected && !(decide isClickedDot) }

/-- Grid context record of `useDotProps` (src/hooks/useDotProps.ts). -/
structure DotGridContext where
  hoveredDot : Option String
  selectedDot : Option String
  rippleDot : Option String
  randomDot : Option String
  gridMousePosition : Option GridPosition
  isMobile : Option Bool
deriving DecidableEq, Repr

/-- Source `getDotDisplayState(entity, context)` of `useDotProps`: same
comparisons, with `shouldHide = !!isMobile && isSelected && !isClickedDot`
(`isMobile` is an optional flag there, coerced with `!!`). -/
def getDotDisplayStateCtx (entityId : String) (context : DotGridContext) : DotDisplayState :=
  let isSelected := context.selectedDot ≠ none
  let isClickedDot := context.selectedDot = some entityId
  { isHovered := decide (context.hoveredDot = some entityId)
    isRippling := decide (context.rippleDot = some entityId)
    isRandomlySelected := decide (context.randomDot = some entityId)
    isSelected := decide isSelected
    isClickedDot := decide isClickedDot
    shouldHide := context.isMobile.getD false && decide isSelected && !(decide isClickedDot) }

/-- Source `getSelectedPosition()`: falsy selection yields `undefined`;
otherwise split the id on `'-'`, and if there are at least two segments and
both the row and column segments parse (`!isNaN`), return `{row, col}`,
else `undefined`. -/
def getSelectedPosition (selectedDot : Option String) : Option GridPosition :=
  if ¬ jsTruthy selectedDot then none
  else
    let parts := jsSplit (selectedDot.getD "") '-'
    if 2 ≤ parts.length then
      match jsParseInt (fallbackSegment parts), jsParseInt (lastSegment parts) with
      | some row, some col => some ⟨row, col⟩
      | _, _ => none
    else none

/-! ## Concrete states and records used by witnesses and counterexamples -/

/-- The hook's initial state: nothing hovered or selected, no animation,
no timer armed (the mount effect arms the inactivity timer afterwards). -/
def initialHookState : HookState :=
  { hoveredDot := none
    selectedDot := none
    selectedContent := none
    rippleDot := none
    randomDot := none
    isContentExpanded := false
    inactivityTimer := false
    rippleTimer := false
    randomTimer := false
    isAnimating := false
    usedDots := []
    animationCount := 0 }

/-- A state with an open card: dot `"2-3"` selected, card expanded. -/
def sampleSelectedState : HookState :=
  { initialHookState with
      selectedDot := some "2-3"
      selectedContent := some "about"
      isContentExpanded := true }

/-- A state captured inside the 100ms inter-pick window of a Randomizing
run: the random interval is armed, `randomDot` was just blanked by the
interval tick, one pick (`"0-0"`) has been made, and the nested pick
timeout is pending. -/
def midRandomState : HookState :=
  { initialHookState with
      randomTimer := true
      isAnimating := true
      usedDots := ["0-0"]
      animationCount := 1 }

/-- An ordinary artist record (no special link). -/
def artistJane : ArtistData :=
  { artistName := "Jane D\x27Oh!!"
    slug := "events-ancient-technology-jane-d-oh"
    isSpecialLink := false
    linkType := none
    url := none }

/-- The special Subscribe tile record the hook prepends to the artist
list. -/
def artistSubscribe : ArtistData :=
  { artistName := "Subscribe"
    slug := "Subscribe"
    isSpecialLink := true
    linkType := some "subscribe"
    url := some "/subscribe" }

/-- Random draws for the C4 counterexample run: the first five picks use
draw `0`, the sixth (after the used set is exhausted and reset) uses
`4/5`, which lands on the same id as the fifth pick. -/
def rsCounter (n : Nat) : ℚ := if n = 5 then 4 / 5 else 0

/-! ## Component checks for the color claim -/

/-- Parse the three channel components of a `#rrggbb` string. -/
def hexColorComponents (s : String) : Option (ℤ × ℤ × ℤ) :=
  match jsParseHex (jsSlice s 1 3), jsParseHex (jsSlice s 3 5), jsParseHex (jsSlice s 5 7) with
  | some r, some g, some b => some (r, g, b)
  | _, _, _ => none

/-- `x` lies inclusively between `a` and `b` (in either order). -/
def betweenZ (a b x : ℤ) : Bool :=
  decide (min a b ≤ x) && decide (x ≤ max a b)

/-- All three channel components of `result` lie inclusively between the
corresponding components of `c1` and `c2`. -/
def colorBetweenCheck (c1 c2 result : String) : Bool :=
  match hexColorComponents c1, hexColorComponents c2, hexColorComponents result with
  | some a, some b, some x =>
    betweenZ a.1 b.1 x.1 && betweenZ a.2.1 b.2.1 x.2.1 && betweenZ a.2.2 b.2.2 x.2.2
  | _, _, _ => false

/-- The component check of claim C8 for `getPositionColor row col 5`:
the row's zone endpoints bound the result componentwise. -/
def positionColorCheck (row col : Nat) : Bool :=
  let zone := ROW_COLOR_ZONES.getD (min row (ROW_COLOR_ZONES.length - 1))
    (paletteSkyfall, paletteVioletHour)
  colorBetweenCheck zone.1 zone.2 (getPositionColor row col 5)

/-- Decimal value of a digit string (proof device: inverse of
`natToChars`, used to prove dot ids are pairwise distinct). -/
def valOfChars (cs : List Char) : Nat :=
  cs.foldl (fun acc c => acc * 10 + (c.toNat - 48)) 0

/-! ## Supporting lemmas -/

theorem digitChar10_toNat (n : Nat) (h : n < 10) : (digitChar10 n).toNat = 48 + n := by
  interval_cases n <;> decide

theorem digitChar10_isDigit (n : Nat) (h : n < 10) : (digitChar10 n).isDigit = true := by
  interval_cases n <;> decide

theorem valOfChars_append_digit (l : List Char) (c : Char) :
    valOfChars (l ++ [c]) = valOfChars l * 10 + (c.toNat - 48) := by
  simp [valOfChars, List.foldl_append]

theorem natToCharsCore_val (fuel : Nat) : ∀ n, n < 10 ^ fuel →
    valOfChars (natToCharsCore fuel n) = n := by
  induction fuel with
  | zero =>
    intro n hn
    interval_cases n
    decide
  | succ f ih =>
    intro n hn
    by_cases h10 : n < 10
    · simp [natToCharsCore, h10, valOfChars, digitChar10_toNat n h10]
    · have hdiv : n / 10 < 10 ^ f := by
        rw [Nat.div_lt_iff_lt_mul (by norm_num)]
        calc n < 10 ^ (f + 1) := hn
          _ = 10 ^ f * 10 := by ring
      have hmod : n % 10 < 10 := Nat.mod_lt n (by norm_num)
      simp only [natToCharsCore, if_neg h10]
      rw [valOfChars_append_digit, ih (n / 10) hdiv, digitChar10_toNat (n % 10) hmod]
      omega

theorem natToChars_val (n : Nat) : valOfChars (natToChars n) = n := by
  apply natToCharsCore_val
  calc n < 10 ^ n := Nat.lt_pow_self (by norm_num) n
    _ ≤ 10 ^ (n + 1) := Nat.pow_le_pow_right (by norm_num) (Nat.le_succ n)

theorem natToChars_inj (a b : Nat) (h : natToChars a = natToChars b) : a = b := by
  have := congrArg valOfChars h
  rwa [natToChars_val, natToChars_val] at this

theorem natToCharsCore_digits (fuel : Nat) : ∀ n c, c ∈ natToCharsCore fuel n →
    c.isDigit = true := by
  induction fuel with
  | zero => intro n c hc; simp [natToCharsCore] at hc
  | succ f ih =>
    intro n c hc
    by_cases h10 : n < 10
    · simp [natToCharsCore, h10] at hc
      rw [hc]
      exact digitChar10_isDigit n h10
    · simp only [natToCharsCore, if_neg h10, List.mem_append, List.mem_singleton] at hc
      rcases hc with h | h
      · exact ih (n / 10) c h
      · rw [h]
        exact digitChar10_isDigit (n % 10) (Nat.mod_lt n (by norm_num))

theorem natToChars_digits (n : Nat) (c : Char) (hc : c ∈ natToChars n) : c.isDigit = true :=
  natToCharsCore_digits (n + 1) n c hc

theorem splitDigitsUnique : ∀ (l1 : List Char) (l2 r1 r2 : List Char),
    (∀ c ∈ l1, c.isDigit = true) → (∀ c ∈ l2, c.isDigit = true) →
    l1 ++ '-' :: r1 = l2 ++ '-' :: r2 → l1 = l2 ∧ r1 = r2 := by
  intro l1
  induction l1 with
  | nil =>
    intro l2 r1 r2 _ h2 heq
    cases l2 with
    | nil => simpa using heq
    | cons c cs =>
      exfalso
      simp at heq
      have hdash : c = '-' := heq.1.symm
      have hd := h2 c (List.mem_cons_self c cs)
      rw [hdash] at hd
      simp [Char.isDigit] at hd
  | cons a as ih =>
    intro l2 r1 r2 h1 h2 heq
    cases l2 with
    | nil =>
      exfalso
      simp at heq
      have hdash : a = '-' := heq.1
      have hd := h1 a (List.mem_cons_self a as)
      rw [hdash] at hd
      simp [Char.isDigit] at hd
    | cons c cs =>
      simp only [List.cons_append, List.cons.injEq] at heq
      obtain ⟨hac, htail⟩ := heq
      have hrest := ih cs r1 r2 (fun x hx => h1 x (List.mem_cons_of_mem a hx))
        (fun x hx => h2 x (List.mem_cons_of_mem c hx)) htail
      exact ⟨by rw [hac, hrest.1], hrest.2⟩

theorem dotId_inj (i j i2 j2 : Nat) (h : dotId i j = dotId i2 j2) : i = i2 ∧ j = j2 := by
  unfold dotId at h
  have hl : natToChars i ++ '-' :: natToChars j = natToChars i2 ++ '-' :: natToChars j2 := by
    have := congrArg String.data h
    simpa using this
  have hsplit := splitDigitsUnique (natToChars i) (natToChars i2) (natToChars j) (natToChars j2)
    (fun c hc => natToChars_digits i c hc) (fun c hc => natToChars_digits i2 c hc) hl
  exact ⟨natToChars_inj _ _ hsplit.1, natToChars_inj _ _ hsplit.2⟩

theorem allDotIds_nodup (cols : Nat) : (allDotIds cols).Nodup := by
  unfold allDotIds
  rw [List.nodup_flatten]
  constructor
  · intro l hl
    simp only [List.mem_map] at hl
    obtain ⟨i, _, rfl⟩ := hl
    apply List.Nodup.map_on
    · intro x _ y _ hxy
      exact (dotId_inj i x i y hxy).2
    · exact List.nodup_range cols
  · rw [List.pairwise_map]
    apply List.Pairwise.imp ?_ (List.pairwise_lt_range 5)
    intro i i2 hlt x hx hx2
    simp only [List.mem_map] at hx hx2
    obtain ⟨j, _, rfl⟩ := hx
    obtain ⟨j2, _, hj2⟩ := hx2
    have := (dotId_inj i2 j2 i j hj2).1
    omega

theorem allDotIds_length (cols : Nat) : (allDotIds cols).length = 5 * cols := by
  unfold allDotIds
  rw [List.length_flatten]
  simp only [List.map_map, Function.comp_def, List.length_map]
  rw [List.map_const', List.sum_replicate, List.length_range]
  simp [Nat.smul_one_eq_cast]

theorem mem_unusedIds (cols : Nat) (used : List String) (x : String) :
    x ∈ unusedIds cols used ↔ x ∈ allDotIds cols ∧ x ∉ used := by
  simp [unusedIds, List.mem_filter]

theorem unusedIds_nil (cols : Nat) : unusedIds cols [] = allDotIds cols := by
  simp [unusedIds]

theorem unusedIds_nil_ne (cols : Nat) (hc : 1 ≤ cols) : unusedIds cols [] ≠ [] := by
  rw [unusedIds_nil]
  intro hcontra
  have hlen := allDotIds_length cols
  rw [hcontra] at hlen
  simp at hlen
  omega

theorem jsFloorIndex_lt (r : ℚ) (len : Nat) (h0 : 0 ≤ r) (h1 : r < 1) (hlen : 0 < len) :
    jsFloorIndex r len < len := by
  have hm : r * (len : ℚ) < (len : ℚ) := by
    calc r * (len : ℚ) < 1 * (len : ℚ) := by
          apply mul_lt_mul_of_pos_right h1
          exact_mod_cast hlen
      _ = (len : ℚ) := one_mul _
  have h2 : ⌊r * (len : ℚ)⌋ < (len : ℤ) := Int.floor_lt.mpr (by exact_mod_cast hm)
  have h3 : (0 : ℤ) ≤ ⌊r * (len : ℚ)⌋ := Int.floor_nonneg.mpr (by positivity)
  unfold jsFloorIndex
  omega

/-- One non-reset pick of `getRandomUnusedDot`: when unused ids remain and
the draw lies in `[0, 1)`, the pick is one of them and is added to the
used set. -/
theorem getRandomUnusedDot_pick (cols : Nat) (r : ℚ) (fuel : Nat) (used : List String)
    (hne : unusedIds cols used ≠ []) (h0 : 0 ≤ r) (h1 : r < 1) :
    ∃ sel, getRandomUnusedDotFuel cols r (fuel + 1) used = some (sel, sel :: used) ∧
      sel ∈ unusedIds cols used := by
  have hlen : 0 < (unusedIds cols used).length := List.length_pos.mpr hne
  have hidx : jsFloorIndex r (unusedIds cols used).length < (unusedIds cols used).length :=
    jsFloorIndex_lt r _ h0 h1 hlen
  refine ⟨(unusedIds cols used).getD (jsFloorIndex r (unusedIds cols used).length) "", ?_, ?_⟩
  · simp only [getRandomUnusedDotFuel]
    rw [if_neg (by simp [List.isEmpty_iff, hne])]
  · rw [List.getD_eq_getElem _ _ hidx]
    exact List.getElem_mem hidx

/-- Invariant of a Randomizing run whose length stays within the `5 * cols`
id count: the used set mirrors the picks, the picks are pairwise distinct
valid ids, and one pick is made per step (so no exhaustion reset has
happened). -/
theorem randomRun_invariant (cols : Nat) (rs : Nat → ℚ)
    (hr : ∀ n, 0 ≤ rs n ∧ rs n < 1) :
    ∀ n, n ≤ 5 * cols →
      (randomRun cols rs n).2 = (randomRun cols rs n).1.reverse ∧
      (randomRun cols rs n).1.Nodup ∧
      (randomRun cols rs n).1.length = n ∧
      ∀ p ∈ (randomRun cols rs n).1, p ∈ allDotIds cols := by
  intro n
  induction n with
  | zero => simp [randomRun]
  | succ m ih =>
    intro hm
    obtain ⟨hrev, hnd, hlen, hsub⟩ := ih (by omega)
    have hne : unusedIds cols (randomRun cols rs m).2 ≠ [] := by
      intro hempty
      have hsubset : allDotIds cols ⊆ (randomRun cols rs m).2 := by
        intro x hx
        by_contra hnx
        have hxmem : x ∈ unusedIds cols (randomRun cols rs m).2 :=
          (mem_unusedIds _ _ _).mpr ⟨hx, hnx⟩
        rw [hempty] at hxmem
        exact absurd hxmem (List.not_mem_nil x)
      have hle := (List.subperm_of_subset (allDotIds_nodup cols) hsubset).length_le
      rw [allDotIds_length, hrev, List.length_reverse, hlen] at hle
      omega
    obtain ⟨sel, hsel, hmem⟩ :=
      getRandomUnusedDot_pick cols (rs m) 1 _ hne (hr m).1 (hr m).2
    have hm2 := (mem_unusedIds _ _ _).mp hmem
    have hstep : randomRun cols rs (m + 1) =
        ((randomRun cols rs m).1 ++ [sel], sel :: (randomRun cols rs m).2) := by
      simp only [randomRun]
      rw [hsel]
    rw [hstep]
    have hselp : sel ∉ (randomRun cols rs m).1 := by
      intro hin
      exact hm2.2 (by rw [hrev]; exact List.mem_reverse.mpr hin)
    refine ⟨?_, ?_, ?_, ?_⟩
    · simp [hrev]
    · simp [List.nodup_append, hnd, hselp]
    · simp [hlen]
    · intro p hp
      rcases List.mem_append.mp hp with h | h
      · exact hsub p h
      · rw [List.mem_singleton.mp h]
        exact hm2.1

theorem rippleState_none_succ (cols n : Nat) (h : rippleState cols n = none) :
    rippleState cols (n + 1) = none := by
  simp [rippleState, h]

/-! ## Claim theorems -/

/-- Supporting fact for claim C1: `handleDotClick` always sets
`selectedDot`/`selectedContent`, nulls `rippleDot`/`randomDot`, clears the
three tracked timer handles, and the three callbacks whose handles the
source keeps in refs (ripple interval, random interval, inactivity
timeout) are no-ops afterwards.  The unguarded nested pick timeout is the
exception — see the claim C1 theorem `handleDotClick_ghost_timeout_fires`. -/
theorem handleDotClick_selects_and_disarms (s : HookState) (clickedId contentKey : String)
    (cols randomCount : Nat) (r : ℚ) (coin : Bool) (closureSel : Option String) :
    (handleDotClick clickedId contentKey s).selectedDot = some clickedId ∧
    (handleDotClick clickedId contentKey s).selectedContent = some contentKey ∧
    (handleDotClick clickedId contentKey s).rippleDot = none ∧
    (handleDotClick clickedId contentKey s).randomDot = none ∧
    (handleDotClick clickedId contentKey s).inactivityTimer = false ∧
    (handleDotClick clickedId contentKey s).rippleTimer = false ∧
    (handleDotClick clickedId contentKey s).randomTimer = false ∧
    rippleIntervalTick cols (handleDotClick clickedId contentKey s) =
      handleDotClick clickedId contentKey s ∧
    randomIntervalTick randomCount (handleDotClick clickedId contentKey s) =
      handleDotClick clickedId contentKey s ∧
    inactivityTimeoutCallback closureSel coin cols r (handleDotClick clickedId contentKey s) =
      handleDotClick clickedId contentKey s := by
  simp [handleDotClick, clearAllAnimations, rippleIntervalTick, randomIntervalTick,
    inactivityTimeoutCallback]

unseal Rat.mul Rat.inv Rat.add Rat.sub in
/-- Claim C1 (code bug): clicking dot `"2-3"` inside the 100ms inter-pick
window of a Randomizing run does set the selection, null both animation
dots and clear the three tracked timer handles — but the nested pick
`setTimeout` scheduled by the random interval has its handle discarded by
the source, so `clearAllAnimations` cannot cancel it, and when it fires
after the click it is NOT a no-op: it sets `randomDot` to a fresh pick
(`"0-1"`), mutates the used set and bumps the count while the card is
open, contradicting the claim's "a pending idle-animation callback firing
afterwards is a no-op". -/
theorem handleDotClick_ghost_timeout_fires :
    (handleDotClick "2-3" "about" midRandomState).selectedDot = some "2-3" ∧
    (handleDotClick "2-3" "about" midRandomState).selectedContent = some "about" ∧
    (handleDotClick "2-3" "about" midRandomState).rippleDot = none ∧
    (handleDotClick "2-3" "about" midRandomState).randomDot = none ∧
    (handleDotClick "2-3" "about" midRandomState).inactivityTimer = false ∧
    (handleDotClick "2-3" "about" midRandomState).rippleTimer = false ∧
    (handleDotClick "2-3" "about" midRandomState).randomTimer = false ∧
    (randomStepTimeoutCallback 5 0 (handleDotClick "2-3" "about" midRandomState)).randomDot =
      some "0-1" ∧
    (randomStepTimeoutCallback 5 0 (handleDotClick "2-3" "about" midRandomState)).usedDots =
      ["0-1", "0-0"] ∧
    randomStepTimeoutCallback 5 0 (handleDotClick "2-3" "about" midRandomState) ≠
      handleDotClick "2-3" "about" midRandomState := by
  decide

/-- Supporting fact for claim C2: whenever the render-time `selectedDot`
captured by the `resetInactivityTimer` closure is truthy (a dot is
selected), `handleClose` leaves the inactivity timer disarmed — the guard
`!selectedDot` reads the stale closure value, not the `null` just set. -/
theorem handleClose_never_rearms (s : HookState) (h : jsTruthy s.selectedDot = true) :
    (handleClose s).1.inactivityTimer = false := by
  simp [handleClose, resetInactivityTimer, h]

/-- Claim C2 (code bug): evaluating `handleClose` on a state with dot
`"2-3"` selected and the card expanded does reset `selectedDot`,
`selectedContent` and `isContentExpanded` and navigates to `/`, but the
inactivity timer is NOT re-armed: `resetInactivityTimer`'s guard reads the
stale render-time `selectedDot` from its closure, so the idle watch stays
dead after closing a card. -/
theorem handleClose_resets_but_leaves_timer_disarmed :
    (handleClose sampleSelectedState).1.selectedDot = none ∧
    (handleClose sampleSelectedState).1.selectedContent = none ∧
    (handleClose sampleSelectedState).1.isContentExpanded = false ∧
    (handleClose sampleSelectedState).2 = [NavAction.push "/"] ∧
    (handleClose sampleSelectedState).1.inactivityTimer = false := by
  decide

/-- Claim C3: starting from `rippleDot = "0-0"`, the ripple run visits
exactly the 25 ids in strict row-major order, then `getNextRipplePosition`
returns `null` exactly once at step 25 and the run stays halted (no later
non-null value), for the default 5-column grid. -/
theorem rippleRun_rowMajor (n : Nat) (hn : 25 ≤ n) :
    (List.range 25).map (rippleState 5) =
      [ some "0-0", some "0-1", some "0-2", some "0-3", some "0-4"
      , some "1-0", some "1-1", some "1-2", some "1-3", some "1-4"
      , some "2-0", some "2-1", some "2-2", some "2-3", some "2-4"
      , some "3-0", some "3-1", some "3-2", some "3-3", some "3-4"
      , some "4-0", some "4-1", some "4-2", some "4-3", some "4-4" ] ∧
    rippleState 5 n = none := by
  refine ⟨by decide, ?_⟩
  induction n, hn using Nat.le_induction with
  | base => decide
  | succ m hm ih => exact rippleState_none_succ 5 m ih

/-- Witness for claim C3 at `n = 30`. -/
theorem rippleRun_rowMajor_witness :
    25 ≤ 30 ∧
    ((List.range 25).map (rippleState 5) =
      [ some "0-0", some "0-1", some "0-2", some "0-3", some "0-4"
      , some "1-0", some "1-1", some "1-2", some "1-3", some "1-4"
      , some "2-0", some "2-1", some "2-2", some "2-3", some "2-4"
      , some "3-0", some "3-1", some "3-2", some "3-3", some "3-4"
      , some "4-0", some "4-1", some "4-2", some "4-3", some "4-4" ] ∧
      rippleState 5 30 = none) :=
  ⟨by decide, rippleRun_rowMajor 30 (by decide)⟩

unseal Rat.mul Rat.inv Rat.add Rat.sub in
/-- Claim C4, counterexample: with `cols = 1` (valid ids
`0-0 … 4-0`) and in-range draws `rsCounter`, a 6-pick Randomizing run
exhausts the used set after pick 5; the reset then allows pick 6 to repeat
pick 5 (`"4-0"` twice in a row), so "never displays the same dot id twice
in consecutive picks" is false for counts beyond the id count. -/
theorem randomRun_consecutive_repeat :
    (randomRun 1 rsCounter 6).1 = ["0-0", "1-0", "2-0", "3-0", "4-0", "4-0"] ∧
    ¬ List.Chain' (fun a b : String => a ≠ b) (randomRun 1 rsCounter 6).1 ∧
    (∀ n, 0 ≤ rsCounter n ∧ rsCounter n < 1) := by
  have h6 : (randomRun 1 rsCounter 6).1 =
      ["0-0", "1-0", "2-0", "3-0", "4-0", "4-0"] := by decide
  refine ⟨h6, ?_, ?_⟩
  · rw [h6]
    simp [List.chain'_cons]
  · intro n
    unfold rsCounter
    split <;> norm_num

/-- Claim C4, amended: if the pick count stays within the `5 * cols` id
count (so the used set is never exhausted mid-run), no id is displayed
twice in consecutive picks (indeed all picks are distinct), and every pick
is a valid id; moreover on an exhausted used set the pick function clears
it and still returns a valid pick. -/
theorem randomRun_spec (cols N : Nat) (rs : Nat → ℚ) (hc : 1 ≤ cols)
    (hr : ∀ n, 0 ≤ rs n ∧ rs n < 1) (hN : N ≤ 5 * cols) :
    List.Chain' (fun a b => a ≠ b) (randomRun cols rs N).1 ∧
    (∀ p ∈ (randomRun cols rs N).1, p ∈ allDotIds cols) ∧
    (∀ used, unusedIds cols used = [] →
      ∃ sel, getRandomUnusedDotFuel cols (rs 0) 2 used = some (sel, [sel]) ∧
        sel ∈ allDotIds cols) := by
  obtain ⟨hrev, hnd, hlen, hsub⟩ := randomRun_invariant cols rs hr N hN
  refine ⟨List.Pairwise.chain' hnd, hsub, ?_⟩
  intro used hused
  obtain ⟨sel, hsel, hmem⟩ :=
    getRandomUnusedDot_pick cols (rs 0) 0 [] (unusedIds_nil_ne cols hc) (hr 0).1 (hr 0).2
  refine ⟨sel, ?_, ((mem_unusedIds cols [] sel).mp hmem).1⟩
  show getRandomUnusedDotFuel cols (rs 0) (1 + 1) used = some (sel, [sel])
  simp only [getRandomUnusedDotFuel]
  rw [if_pos (by simp [List.isEmpty_iff, hused])]
  exact hsel

/-- Witness for the amended claim C4 at `cols = 1`, `N = 5`, all draws
`0`. -/
theorem randomRun_spec_witness :
    1 ≤ 1 ∧ 5 ≤ 5 * 1 ∧
    (List.Chain' (fun a b => a ≠ b) (randomRun 1 (fun _ => 0) 5).1 ∧
     (∀ p ∈ (randomRun 1 (fun _ => 0) 5).1, p ∈ allDotIds 1) ∧
     (∀ used, unusedIds 1 used = [] →
       ∃ sel, getRandomUnusedDotFuel 1 ((fun (_ : Nat) => (0 : ℚ)) 0) 2 used =
           some (sel, [sel]) ∧ sel ∈ allDotIds 1)) :=
  ⟨le_refl 1, by decide,
    randomRun_spec 1 5 (fun _ => 0) (le_refl 1) (fun _ => ⟨le_refl 0, zero_lt_one⟩) (by decide)⟩

/-- Claim C5: `handleArtistDotClick` with a special-link record leaves
`selectedDot`/`selectedContent` unchanged and performs only the link's
navigation action (`push /subscribe` for a subscribe link, `window.open`
of the url for an instagram link with a truthy url, nothing otherwise);
with an ordinary artist record it sets `selectedDot` to the clicked id,
`selectedContent` to the slug derived from the artist name, and navigates
to the slug route; the slugging rule sends `"Jane D'Oh!!"` to
`"jane-d-oh"`. -/
theorem handleArtistDotClick_spec (s : HookState) (clickedId : String) (artist : ArtistData) :
    (artist.isSpecialLink = true →
      ((handleArtistDotClick clickedId artist s).1.selectedDot = s.selectedDot ∧
       (handleArtistDotClick clickedId artist s).1.selectedContent = s.selectedContent ∧
       (artist.linkType = some "subscribe" →
         (handleArtistDotClick clickedId artist s).2 = [NavAction.push "/subscribe"]) ∧
       (artist.linkType = some "instagram" → jsTruthy artist.url = true →
         (handleArtistDotClick clickedId artist s).2 =
           [NavAction.openWindow (artist.url.getD "")]) ∧
       (artist.linkType ≠ some "subscribe" →
         ¬ (artist.linkType = some "instagram" ∧ jsTruthy artist.url = true) →
         (handleArtistDotClick clickedId artist s).2 = []))) ∧
    (artist.isSpecialLink = false →
      ((handleArtistDotClick clickedId artist s).1.selectedDot = some clickedId ∧
       (handleArtistDotClick clickedId artist s).1.selectedContent =
         some (slugifyArtistName artist.artistName) ∧
       (handleArtistDotClick clickedId artist s).2 =
         [NavAction.push ("/events/ancient-technology/" ++
           slugifyArtistName artist.artistName)])) ∧
    slugifyArtistName "Jane D\x27Oh!!" = "jane-d-oh" := by
  refine ⟨fun h => ?_, fun h => ?_, by decide⟩
  · by_cases h1 : artist.linkType = some "subscribe"
    · simp [handleArtistDotClick, h, h1, clearAllAnimations]
    · by_cases h2 : artist.linkType = some "instagram" ∧ jsTruthy artist.url = true
      · simp [handleArtistDotClick, h, h1, h2, clearAllAnimations]
      · simp [handleArtistDotClick, h, h1, h2, clearAllAnimations]
        intro hinsta
        cases hb : jsTruthy artist.url with
        | false => rfl
        | true => exact absurd ⟨hinsta, hb⟩ h2
  · simp [handleArtistDotClick, h, clearAllAnimations]

/-- Witness for claim C5: an ordinary artist record sets the selection to
the derived slug and navigates to the slug route, while the special
Subscribe record leaves the selection untouched and performs exactly the
subscribe navigation. -/
theorem handleArtistDotClick_spec_witness :
    (artistJane.isSpecialLink = false ∧
      (handleArtistDotClick "jane" artistJane initialHookState).1.selectedDot = some "jane" ∧
      (handleArtistDotClick "jane" artistJane initialHookState).1.selectedContent =
        some "jane-d-oh" ∧
      (handleArtistDotClick "jane" artistJane initialHookState).2 =
        [NavAction.push "/events/ancient-technology/jane-d-oh"]) ∧
    (artistSubscribe.isSpecialLink = true ∧
      (handleArtistDotClick "sub" artistSubscribe initialHookState).1.selectedDot =
        initialHookState.selectedDot ∧
      (handleArtistDotClick "sub" artistSubscribe initialHookState).2 =
        [NavAction.push "/subscribe"]) := by
  have h1 := (handleArtistDotClick_spec initialHookState "jane" artistJane).2.1 (by decide)
  have h2 := (handleArtistDotClick_spec initialHookState "sub" artistSubscribe).1 (by decide)
  exact ⟨⟨by decide, h1.1, h1.2.1.trans (by decide), h1.2.2.trans (by decide)⟩,
    ⟨by decide, h2.1, h2.2.2.1 (by decide)⟩⟩

/-- Claim C6: `getDotDisplayState` is a pure function of the snapshot
(hovered/selected/ripple/random dots and the viewport width) and the
queried id — equal inputs give structurally equal outputs, and each field
is exactly the comparison the claim states; it also agrees with the
context-based `getDotDisplayState` of `useDotProps` when the context's
`isMobile` flag encodes the same viewport test. -/
theorem getDotDisplayState_pure (hov sel rip rand : Option String) (w : Option ℤ)
    (mouse : Option GridPosition) (d : String) :
    getDotDisplayState hov sel rip rand w d = getDotDisplayState hov sel rip rand w d ∧
    (getDotDisplayState hov sel rip rand w d).isHovered = decide (hov = some d) ∧
    (getDotDisplayState hov sel rip rand w d).isRippling = decide (rip = some d) ∧
    (getDotDisplayState hov sel rip rand w d).isRandomlySelected = decide (rand = some d) ∧
    (getDotDisplayState hov sel rip rand w d).isSelected = decide (sel ≠ none) ∧
    (getDotDisplayState hov sel rip rand w d).isClickedDot = decide (sel = some d) ∧
    (getDotDisplayState hov sel rip rand w d).shouldHide =
      (isMobileOfWidth w && decide (sel ≠ none) && !decide (sel = some d)) ∧
    getDotDisplayState hov sel rip rand w d =
      getDotDisplayStateCtx d ⟨hov, sel, rip, rand, mouse, some (isMobileOfWidth w)⟩ := by
  simp [getDotDisplayState, getDotDisplayStateCtx]

/-- Claim C7: `worldToGrid` after `gridToWorld` with the same positive cell
size and non-negative gap recovers the original integer grid position (the
floor lands exactly on the cell-aligned point). -/
theorem gridToWorld_worldToGrid_roundTrip (pos : GridPosition) (cellSize gap : ℚ)
    (hcell : 0 < cellSize) (hgap : 0 ≤ gap) :
    worldToGrid (gridToWorld pos cellSize gap) cellSize gap = pos := by
  obtain ⟨r, c⟩ := pos
  have hd : cellSize + gap ≠ 0 := ne_of_gt (add_pos_of_pos_of_nonneg hcell hgap)
  simp [gridToWorld, worldToGrid, mul_div_cancel_right₀ _ hd, Int.floor_intCast]

/-- Witness for claim C7 at `cellSize = 1`, `gap = 0`, position (3, 4). -/
theorem gridToWorld_worldToGrid_roundTrip_witness :
    (0 : ℚ) < 1 ∧ (0 : ℚ) ≤ 0 ∧
      worldToGrid (gridToWorld ⟨3, 4⟩ 1 0) 1 0 = (⟨3, 4⟩ : GridPosition) :=
  ⟨zero_lt_one, le_refl 0,
    gridToWorld_worldToGrid_roundTrip ⟨3, 4⟩ 1 0 zero_lt_one (le_refl 0)⟩

unseal Rat.mul Rat.inv Rat.add Rat.sub in
/-- Claim C8: for all `row, col` in `[0, 4]` with the default
`totalCols = 5`, every channel of `getPositionColor row col 5` lies
inclusively between the corresponding channels of the row zone's two
endpoint colors; the function is deterministic (equal inputs give the
identical hex string — immediate since the embedding is a function); and a
row index past the last zone is clamped to the last zone. -/
theorem getPositionColor_spec (row col : Nat) (hr : row < 5) (hc : col < 5) :
    positionColorCheck row col = true ∧
    (∀ row2 col2 : Nat, row2 = row → col2 = col →
      getPositionColor row2 col2 5 = getPositionColor row col 5) ∧
    (∀ rbig c2 : Nat, 5 ≤ rbig → getPositionColor rbig c2 5 = getPositionColor 4 c2 5) := by
  refine ⟨?_, ?_, ?_⟩
  · have key : ∀ r2 < 5, ∀ c2 < 5, positionColorCheck r2 c2 = true := by decide
    exact key row hr col hc
  · intro row2 col2 e1 e2
    rw [e1, e2]
  · intro rbig c2 hbig
    unfold getPositionColor
    have hmin : min rbig (ROW_COLOR_ZONES.length - 1) = min 4 (ROW_COLOR_ZONES.length - 1) := by
      simp [ROW_COLOR_ZONES]
      omega
    rw [hmin]

/-- Witness for claim C8 at `row = 2`, `col = 3`. -/
theorem getPositionColor_spec_witness :
    2 < 5 ∧ 3 < 5 ∧
    (positionColorCheck 2 3 = true ∧
     (∀ row2 col2 : Nat, row2 = 2 → col2 = 3 →
       getPositionColor row2 col2 5 = getPositionColor 2 3 5) ∧
     (∀ rbig c2 : Nat, 5 ≤ rbig → getPositionColor rbig c2 5 = getPositionColor 4 c2 5)) :=
  ⟨by decide, by decide, getPositionColor_spec 2 3 (by decide) (by decide)⟩

/-- Claim C9: `getSelectedPosition` is total (the embedding returns an
`Option`, and every JS operation it models — split, parseInt, isNaN — is
non-throwing): it returns `{row, col}` exactly when the id has at least two
hyphen segments whose row and column segments both parse, and `undefined`
(`none`) on every malformed id, e.g. the artist slug `"jane-d-oh"`. -/
theorem getSelectedPosition_total_spec :
    (∀ sel : Option String,
      match getSelectedPosition sel with
      | some p =>
        ∃ s, sel = some s ∧ 2 ≤ (jsSplit s '-').length ∧
          jsParseInt (fallbackSegment (jsSplit s '-')) = some p.row ∧
          jsParseInt (lastSegment (jsSplit s '-')) = some p.col
      | none =>
        sel = none ∨ ∃ s, sel = some s ∧
          (s = "" ∨ (jsSplit s '-').length < 2 ∨
           jsParseInt (fallbackSegment (jsSplit s '-')) = none ∨
           jsParseInt (lastSegment (jsSplit s '-')) = none)) ∧
    getSelectedPosition (some "jane-d-oh") = none ∧
    getSelectedPosition (some "overflow-3-2") = some ⟨3, 2⟩ ∧
    getSelectedPosition (some "3-2") = some ⟨3, 2⟩ ∧
    getSelectedPosition none = none := by
  refine ⟨?_, by decide, by decide, by decide, by decide⟩
  intro sel
  match sel with
  | none => simp [getSelectedPosition, jsTruthy]
  | some s =>
    by_cases hs : s = ""
    · subst hs
      simp [getSelectedPosition, jsTruthy]
    · have ht : jsTruthy (some s) = true := by simp [jsTruthy, bne_iff_ne, hs]
      by_cases hlen : 2 ≤ (jsSplit s '-').length
      · cases hrow : jsParseInt (fallbackSegment (jsSplit s '-')) with
        | none =>
          have hres : getSelectedPosition (some s) = none := by
            simp [getSelectedPosition, ht, hlen, hrow]
          rw [hres]
          exact Or.inr ⟨s, rfl, Or.inr (Or.inr (Or.inl hrow))⟩
        | some r =>
          cases hcol : jsParseInt (lastSegment (jsSplit s '-')) with
          | none =>
            have hres : getSelectedPosition (some s) = none := by
              simp [getSelectedPosition, ht, hlen, hrow, hcol]
            rw [hres]
            exact Or.inr ⟨s, rfl, Or.inr (Or.inr (Or.inr hcol))⟩
          | some c =>
            have hres : getSelectedPosition (some s) = some ⟨r, c⟩ := by
              simp [getSelectedPosition, ht, hlen, hrow, hcol]
            rw [hres]
            exact ⟨s, rfl, hlen, hrow, hcol⟩
      · have hres : getSelectedPosition (some s) = none := by
          simp [getSelectedPosition, ht, hlen]
        rw [hres]
        exact Or.inr ⟨s, rfl, Or.inr (Or.inl (by omega))⟩

/-- Claim C10: for every used set and `cols ≥ 1`, `getRandomUnusedDot`
terminates within one used-set reset (fuel 2 suffices) and returns a valid
id that was not in the used set at the moment of selection (the original
set, or the freshly cleared one), adding it to that set. -/
theorem getRandomUnusedDot_spec (cols : Nat) (r : ℚ) (used : List String)
    (hc : 1 ≤ cols) (h0 : 0 ≤ r) (h1 : r < 1) :
    ∃ sel usedAtSel,
      getRandomUnusedDotFuel cols r 2 used = some (sel, sel :: usedAtSel) ∧
      (usedAtSel = used ∨ usedAtSel = []) ∧
      sel ∈ allDotIds cols ∧ sel ∉ usedAtSel := by
  by_cases hne : unusedIds cols used = []
  · obtain ⟨sel, hsel, hmem⟩ :=
      getRandomUnusedDot_pick cols r 0 [] (unusedIds_nil_ne cols hc) h0 h1
    refine ⟨sel, [], ?_, Or.inr rfl, ((mem_unusedIds cols [] sel).mp hmem).1, by simp⟩
    show getRandomUnusedDotFuel cols r (1 + 1) used = some (sel, [sel])
    simp only [getRandomUnusedDotFuel]
    rw [if_pos (by simp [List.isEmpty_iff, hne])]
    exact hsel
  · obtain ⟨sel, hsel, hmem⟩ := getRandomUnusedDot_pick cols r 1 used hne h0 h1
    have hm := (mem_unusedIds cols used sel).mp hmem
    exact ⟨sel, used, hsel, Or.inl rfl, hm.1, hm.2⟩

/-- Witness for claim C10 at `cols = 5`, draw `0`, empty used set. -/
theorem getRandomUnusedDot_spec_witness :
    1 ≤ 5 ∧ (0 : ℚ) ≤ 0 ∧ (0 : ℚ) < 1 ∧
    (∃ sel usedAtSel,
      getRandomUnusedDotFuel 5 0 2 [] = some (sel, sel :: usedAtSel) ∧
      (usedAtSel = [] ∨ usedAtSel = []) ∧
      sel ∈ allDotIds 5 ∧ sel ∉ usedAtSel) :=
  ⟨by decide, le_refl 0, zero_lt_one,
    getRandomUnusedDot_spec 5 0 [] (by decide) (le_refl 0) zero_lt_one⟩
